import Mathlib

/-!
Verification of the numpy-ml differentiable-layer library
(src/neural_nets/layers/layers.py) against its natural-language
specification.  Tensors are embedded as total functions from natural-number
indices to rationals; indices outside the stated bounds are never read by
the definitions below.  Activation functions, gate functions and optimizers
are external collaborators in the source and are therefore parameters here.
-/

namespace Conv2DGrad

/-- Four-index tensor (example, row, column, channel) embedded as a total
function; entries outside the stated dimension bounds are irrelevant. -/
abbrev Tensor4 : Type := ℕ → ℕ → ℕ → ℕ → ℚ

/-- The data reaching a Conv2D backward call: hyperparameters, the cached
input X, the weights W (indexed kernel-row, kernel-col, in-channel,
out-channel), the cached pre-activation Z, the upstream gradient dLdY, the
activation's local derivative, and the resolved padding amounts
(pr1, pc1 = leading row/column padding).  Both backward implementations in
the source resolve the padding through the same helper, so the resolved
amounts are shared parameters here. -/
structure Ctx where
  nEx : ℕ
  outRows : ℕ
  outCols : ℕ
  outCh : ℕ
  fr : ℕ
  fc : ℕ
  inCh : ℕ
  inRows : ℕ
  inCols : ℕ
  s : ℕ
  d : ℕ
  pr1 : ℕ
  pc1 : ℕ
  X : Tensor4
  W : Tensor4
  Z : Tensor4
  dLdY : Tensor4
  actGrad : ℚ → ℚ

/-- Zero-padding of the cached input volume (pad2D): the original entries
sit at row offset pr1 and column offset pc1, everything else is zero. -/
def xPad (c : Ctx) : Tensor4 := fun m r t q =>
  if c.pr1 ≤ r ∧ r < c.pr1 + c.inRows ∧ c.pc1 ≤ t ∧ t < c.pc1 + c.inCols then
    c.X m (r - c.pr1) (t - c.pc1) q
  else 0

/-- Upstream gradient pushed through the activation's local derivative:
dLdZ = dLdY * act_fn.grad(Z), shared by both backward implementations. -/
def dLdZ (c : Ctx) : Tensor4 := fun m i j ch =>
  c.dLdY m i j ch * c.actGrad (c.Z m i j ch)

/-- Weight gradient of Conv2D._backward_naive: the explicit loop over
(example m, output row i, output col j, output channel ch) accumulates
window * kernel into dW[u, v, q, ch], where the window entry for kernel
position (u, v) is X_pad[m, i*s + u*(d+1), j*s + v*(d+1), q].  The loop
only ever adds terms, so its final value is the sum of all contributions. -/
def naive_dW (c : Ctx) (u v q ch : ℕ) : ℚ :=
  ∑ m ∈ Finset.range c.nEx, ∑ i ∈ Finset.range c.outRows,
    ∑ j ∈ Finset.range c.outCols,
      xPad c m (i * c.s + u * (c.d + 1)) (j * c.s + v * (c.d + 1)) q *
        dLdZ c m i j ch

/-- Bias gradient of Conv2D._backward_naive: dB[ch] accumulates
dZ[m, i, j, ch] over every loop iteration. -/
def naive_dB (c : Ctx) (ch : ℕ) : ℚ :=
  ∑ m ∈ Finset.range c.nEx, ∑ i ∈ Finset.range c.outRows,
    ∑ j ∈ Finset.range c.outCols, dLdZ c m i j ch

/-- Input gradient of Conv2D._backward_naive before cropping: each loop
iteration (m, i, j, ch) adds W[u, v, q, ch] * dZ[m, i, j, ch] at padded
position (i*s + u*(d+1), j*s + v*(d+1)) for every kernel offset (u, v).
The inner condition singles out the kernel offsets that hit (r, t). -/
def naive_dXpad (c : Ctx) (m r t q : ℕ) : ℚ :=
  ∑ i ∈ Finset.range c.outRows, ∑ j ∈ Finset.range c.outCols,
    ∑ ch ∈ Finset.range c.outCh, ∑ u ∈ Finset.range c.fr,
      ∑ v ∈ Finset.range c.fc,
        if r = i * c.s + u * (c.d + 1) ∧ t = j * c.s + v * (c.d + 1) then
          c.W u v q ch * dLdZ c m i j ch
        else 0

/-- Input gradient returned by Conv2D._backward_naive: the padding frame is
cropped off (dX[:, pr1:-pr2, pc1:-pc2, :]). -/
def naive_dX (c : Ctx) (m r t q : ℕ) : ℚ :=
  naive_dXpad c m (r + c.pr1) (t + c.pc1) q

/-- Modelled from the spec: the im2col unrolling transform lives in utils.py,
which is not under src/.  Per the spec it pads X and, for every output
position, lays the (dilated) receptive-field window across all input
channels out as one column; rows are indexed by (input channel q, kernel
row u, kernel col v) and columns by (output row i, output col j, example m),
matching the iteration order the vectorized backward's reshapes assume. -/
def im2colX (c : Ctx) (q u v i j m : ℕ) : ℚ :=
  xPad c m (i * c.s + u * (c.d + 1)) (j * c.s + v * (c.d + 1)) q

/-- Columnized upstream gradient dLdZ_col = dLdZ.transpose(3, 1, 2, 0)
reshaped to (out_ch, out_rows * out_cols * n_ex): entry at row ch and
column (i, j, m). -/
def dLdZcol (c : Ctx) (ch i j m : ℕ) : ℚ := dLdZ c m i j ch

/-- Columnized weights W_col = W.transpose(3, 2, 0, 1).reshape(out_ch, -1).T:
entry at row (q, u, v) and column ch. -/
def wCol (c : Ctx) (q u v ch : ℕ) : ℚ := c.W u v q ch

/-- Weight gradient of the vectorized Conv2D.backward:
dW = dLdZ_col.dot(X_col.T).reshape(out_ch, in_ch, fr, fc).transpose(2, 3, 1, 0),
so entry (u, v, q, ch) is the dot product of row ch of dLdZ_col with row
(q, u, v) of X_col over all columns (i, j, m). -/
def vec_dW (c : Ctx) (u v q ch : ℕ) : ℚ :=
  ∑ i ∈ Finset.range c.outRows, ∑ j ∈ Finset.range c.outCols,
    ∑ m ∈ Finset.range c.nEx, dLdZcol c ch i j m * im2colX c q u v i j m

/-- Bias gradient of the vectorized Conv2D.backward:
dB = dLdZ_col.sum(axis=1), the sum of row ch over all columns (i, j, m). -/
def vec_dB (c : Ctx) (ch : ℕ) : ℚ :=
  ∑ i ∈ Finset.range c.outRows, ∑ j ∈ Finset.range c.outCols,
    ∑ m ∈ Finset.range c.nEx, dLdZcol c ch i j m

/-- Columnized input gradient dX_col = W_col.dot(dLdZ_col): entry at row
(q, u, v) and column (i, j, m). -/
def dXcol (c : Ctx) (q u v i j m : ℕ) : ℚ :=
  ∑ ch ∈ Finset.range c.outCh, wCol c q u v ch * dLdZcol c ch i j m

/-- Modelled from the spec: the col2im inverse scatter-add lives in utils.py,
which is not under src/.  Per the spec it re-expands each column entry into
its receptive-field footprint and sums overlapping contributions into a
zero-initialized padded volume, using the same window/padding arithmetic as
im2col: column (i, j, m), row (q, u, v) lands at padded position
(i*s + u*(d+1), j*s + v*(d+1)) of example m, channel q. -/
def col2imAdd (c : Ctx) (m r t q : ℕ) : ℚ :=
  ∑ u ∈ Finset.range c.fr, ∑ v ∈ Finset.range c.fc,
    ∑ i ∈ Finset.range c.outRows, ∑ j ∈ Finset.range c.outCols,
      if r = i * c.s + u * (c.d + 1) ∧ t = j * c.s + v * (c.d + 1) then
        dXcol c q u v i j m
      else 0

/-- Input gradient returned by the vectorized Conv2D.backward: col2im output
with the padding frame cropped off. -/
def vec_dX (c : Ctx) (m r t q : ℕ) : ℚ :=
  col2imAdd c m (r + c.pr1) (t + c.pc1) q

end Conv2DGrad

namespace RBM

/-- Matrix embedded as a total function from (row, column) indices. -/
abbrev Mat : Type := ℕ → ℕ → ℚ

/-- The state a RestrictedBoltzmannMachine forward call works with: the
dimensions, the parameters W (n_in x n_out), b_in, b_out, and the sigmoid
collaborator (act_fn_V = act_fn_H, external to the layer). -/
structure P where
  nEx : ℕ
  nIn : ℕ
  nOut : ℕ
  W : Mat
  bIn : ℕ → ℚ
  bOut : ℕ → ℚ
  sigma : ℚ → ℚ

/-- Bernoulli sampling against a matrix of uniform draws R:
H = (np.random.rand(...) <= p).astype(float). -/
def sample (R Pm : Mat) : Mat := fun i j => if R i j ≤ Pm i j then 1 else 0

/-- Initial hidden-unit probabilities p_H = sigmoid(V . W + b_out). -/
def pH (p : P) (V : Mat) : Mat := fun m j =>
  p.sigma ((∑ k ∈ Finset.range p.nIn, V m k * p.W k j) + p.bOut j)

/-- The hidden state entering Gibbs step k of the forward chain.  Step 0
starts from the binary sample of p_H drawn against R0.  After step k the
hidden probabilities are kept raw exactly when k = self.K - 1 (the source
tests the CONSTRUCTOR field self.K, not the K actually being run) and are
otherwise resampled against the step draws Rs k.  The comparison is over ℤ
because Python's self.K - 1 is -1 when self.K = 0. -/
def Hp (p : P) (V R0 : Mat) (Rs : ℕ → Mat) (selfK : ℕ) : ℕ → Mat
  | 0 => sample R0 (pH p V)
  | k + 1 =>
      let pVpk : Mat := fun m i =>
        p.sigma ((∑ j ∈ Finset.range p.nOut, Hp p V R0 Rs selfK k m j * p.W i j) + p.bIn i)
      let pHpk : Mat := fun m j =>
        p.sigma ((∑ i ∈ Finset.range p.nIn, pVpk m i * p.W i j) + p.bOut j)
      if (k : ℤ) ≠ (selfK : ℤ) - 1 then sample (Rs k) pHpk else pHpk

/-- Reconstructed visible probabilities computed during Gibbs step k:
p_V' = sigmoid(H' . W^T + b_in) with H' the hidden state entering step k. -/
def pVp (p : P) (V R0 : Mat) (Rs : ℕ → Mat) (selfK k : ℕ) : Mat := fun m i =>
  p.sigma ((∑ j ∈ Finset.range p.nOut, Hp p V R0 Rs selfK k m j * p.W i j) + p.bIn i)

/-- Hidden probabilities recomputed from the reconstruction during Gibbs
step k: p_H' = sigmoid(p_V' . W + b_out). -/
def pHp (p : P) (V R0 : Mat) (Rs : ℕ → Mat) (selfK k : ℕ) : Mat := fun m j =>
  p.sigma ((∑ i ∈ Finset.range p.nIn, pVp p V R0 Rs selfK k m i * p.W i j) + p.bOut j)

/-- Cached derived variable p_V_prime after forward ran k = 0 .. K-1:
the reconstruction computed in the final loop iteration. -/
def cachedPVprime (p : P) (V R0 : Mat) (Rs : ℕ → Mat) (selfK K : ℕ) : Mat :=
  pVp p V R0 Rs selfK (K - 1)

/-- Cached derived variable p_H_prime after forward ran k = 0 .. K-1. -/
def cachedPHprime (p : P) (V R0 : Mat) (Rs : ℕ → Mat) (selfK K : ℕ) : Mat :=
  pHp p V R0 Rs selfK (K - 1)

/-- Cached positive statistic: positive_grad = np.dot(V.T, p_H),
computed from probabilities before the Gibbs chain runs. -/
def positiveGrad (p : P) (V : Mat) : Mat := fun a b =>
  ∑ m ∈ Finset.range p.nEx, V m a * pH p V m b

/-- Cached negative statistic: negative_grad = np.dot(p_V_prime.T, p_H_prime). -/
def negativeGrad (p : P) (V R0 : Mat) (Rs : ℕ → Mat) (selfK K : ℕ) : Mat := fun a b =>
  ∑ m ∈ Finset.range p.nEx,
    cachedPVprime p V R0 Rs selfK K m a * cachedPHprime p V R0 Rs selfK K m b

/-- Gradient stored under "b_in" by RestrictedBoltzmannMachine.backward:
V - p_V_prime, read from the cached derived variables. -/
def gradBIn (p : P) (V R0 : Mat) (Rs : ℕ → Mat) (selfK K : ℕ) : Mat := fun m i =>
  V m i - cachedPVprime p V R0 Rs selfK K m i

/-- Gradient stored under "b_out" by backward: p_H - p_H_prime. -/
def gradBOut (p : P) (V R0 : Mat) (Rs : ℕ → Mat) (selfK K : ℕ) : Mat := fun m j =>
  pH p V m j - cachedPHprime p V R0 Rs selfK K m j

/-- Gradient stored under "W" by backward: positive_grad - negative_grad. -/
def gradW (p : P) (V R0 : Mat) (Rs : ℕ → Mat) (selfK K : ℕ) : Mat := fun a b =>
  positiveGrad p V a b - negativeGrad p V R0 Rs selfK K a b

/-- Modelled from the spec: the hidden state entering step k of the chain as
section 4.8 describes it — for every step except the last of the K steps
actually run, resample the hidden states as binary draws, and on the final
step keep the raw probabilities.  It differs from the source's Hp only in
testing against K - 1 instead of self.K - 1. -/
def HpSpec (p : P) (V R0 : Mat) (Rs : ℕ → Mat) (K : ℕ) : ℕ → Mat
  | 0 => sample R0 (pH p V)
  | k + 1 =>
      let pVpk : Mat := fun m i =>
        p.sigma ((∑ j ∈ Finset.range p.nOut, HpSpec p V R0 Rs K k m j * p.W i j) + p.bIn i)
      let pHpk : Mat := fun m j =>
        p.sigma ((∑ i ∈ Finset.range p.nIn, pVpk m i * p.W i j) + p.bOut j)
      if (k : ℤ) ≠ (K : ℤ) - 1 then sample (Rs k) pHpk else pHpk

/-- Modelled from the spec: the reconstruction p_V' computed during step k
of the spec-described chain. -/
def pVpSpec (p : P) (V R0 : Mat) (Rs : ℕ → Mat) (K k : ℕ) : Mat := fun m i =>
  p.sigma ((∑ j ∈ Finset.range p.nOut, HpSpec p V R0 Rs K k m j * p.W i j) + p.bIn i)

/-- The concrete 1 x 1 instance used to exhibit the self.K / K divergence:
sigma is taken as the identity collaborator, V = 1, W = 1/2, zero biases. -/
def exP : P :=
  { nEx := 1, nIn := 1, nOut := 1, W := fun _ _ => 1/2,
    bIn := fun _ => 0, bOut := fun _ => 0, sigma := fun x => x }

/-- Concrete visible input for the divergence instance. -/
def exV : Mat := fun _ _ => 1

/-- Concrete uniform draws: every draw is 1/2. -/
def exR : Mat := fun _ _ => 1/2

end RBM

namespace RNNCellSM

/-- The Python value stored under derived_variables["dLdA_accumulator"]:
None right after parameter initialization, an empty Python list right after
flush_gradients (which blanket-resets every derived variable to []), or a
numeric array.  The instance is scalar (n_ex = n_in = n_out = 1), so an
array is a single rational. -/
inductive Acc where
  | noneV : Acc
  | emptyList : Acc
  | arr : ℚ → Acc
deriving DecidableEq

/-- RNNCell state: the trainable flag, lazy-initialization flag, the four
parameters, the cached inputs X, the per-timestep caches A and Z, the two
counters, the gradient accumulator, and the four parameter gradients. -/
structure State where
  initialized : Bool
  trainable : Bool
  Waa : ℚ
  Wax : ℚ
  ba : ℚ
  bx : ℚ
  X : List ℚ
  As : List ℚ
  Zs : List ℚ
  nTimesteps : ℤ
  currentStep : ℤ
  acc : Acc
  gWaa : ℚ
  gWax : ℚ
  gBa : ℚ
  gBx : ℚ
deriving DecidableEq

/-- Python list indexing: a negative index counts from the end of the list;
an index out of range (after that adjustment) raises IndexError. -/
def pyGet (l : List ℚ) (i : ℤ) : Except String ℚ :=
  let j : ℤ := if i < 0 then i + l.length else i
  if 0 ≤ j ∧ j < (l.length : ℤ) then Except.ok (l.getD j.toNat 0)
  else Except.error "IndexError: list index out of range"

/-- RNNCell.forward for one timestep (scalar instance).  Lazily initializes
the caches on the first ever call, increments both counters, synthesizes
the all-zero initial hidden state when the A cache is empty, computes
Zt = A_prev * Waa + ba + Xt * Wax + bx and At = act_fn(Zt), and appends
Xt, Zt, At to the caches. -/
def forward (actFn : ℚ → ℚ) (s : State) (Xt : ℚ) : State :=
  let s :=
    if s.initialized then s
    else { s with initialized := true, X := [], As := [], Zs := [],
                  nTimesteps := 0, currentStep := 0, acc := Acc.noneV,
                  gWaa := 0, gWax := 0, gBa := 0, gBx := 0 }
  let s := { s with nTimesteps := s.nTimesteps + 1, currentStep := s.currentStep + 1 }
  let As := if s.As.isEmpty then [(0 : ℚ)] else s.As
  let Aprev := As.getLastD 0
  let Zt := Aprev * s.Waa + s.ba + Xt * s.Wax + s.bx
  let At := actFn Zt
  { s with X := s.X ++ [Xt], Zs := s.Zs ++ [Zt], As := As ++ [At] }

/-- RNNCell.backward for one timestep (scalar instance), mirroring the
source's order of operations: assert trainable; read the derived variables
(a KeyError if no forward ever initialized them); decrement the step
cursor and set t to it; replace a None accumulator by zero — an empty-list
accumulator (the state flush_gradients leaves behind) is NOT None, and
numpy then fails to broadcast dLdAt + [] — then index the caches at t with
Python list semantics, accumulate the parameter gradients, overwrite the
accumulator, and return the input gradient. -/
def backward (actGrad : ℚ → ℚ) (s : State) (dLdAt : ℚ) :
    Except String (ℚ × State) :=
  if ¬ s.trainable then Except.error "AssertionError: Layer is frozen"
  else if ¬ s.initialized then
    Except.error "KeyError: current_step"
  else
    let cs := s.currentStep - 1
    let t := cs
    (match s.acc with
      | Acc.noneV => Except.ok (0 : ℚ)
      | Acc.emptyList =>
          Except.error "ValueError: operands could not be broadcast together"
      | Acc.arr a => Except.ok a).bind fun dAacc =>
    (pyGet s.Zs t).bind fun Zt =>
    (pyGet s.As t).bind fun At =>
    (pyGet s.X t).bind fun Xt =>
    let dA := dLdAt + dAacc
    let dZ := actGrad Zt * dA
    let dXt := dZ * s.Wax
    Except.ok (dXt,
      { s with currentStep := cs,
               gWaa := s.gWaa + At * dZ,
               gWax := s.gWax + Xt * dZ,
               gBa := s.gBa + dZ,
               gBx := s.gBx + dZ,
               acc := Acc.arr (dZ * s.Waa) })

/-- RNNCell.flush_gradients: asserts trainable, then resets X to [], resets
EVERY derived variable to an empty Python list (including the gradient
accumulator), restores the two counters to 0, and zeroes the parameter
gradients. -/
def flushGradients (s : State) : Except String State :=
  if ¬ s.trainable then Except.error "AssertionError: Layer is frozen"
  else
    Except.ok { s with X := [], As := [], Zs := [], acc := Acc.emptyList,
                       nTimesteps := 0, currentStep := 0,
                       gWaa := 0, gWax := 0, gBa := 0, gBx := 0 }

/-- Identity activation collaborator for the concrete runs. -/
def exAct : ℚ → ℚ := fun x => x

/-- Local derivative of the identity activation. -/
def exActGrad : ℚ → ℚ := fun _ => 1

/-- A freshly constructed RNNCell with Waa = Wax = 1 and zero biases. -/
def exInit : State :=
  { initialized := false, trainable := true, Waa := 1, Wax := 1, ba := 0,
    bx := 0, X := [], As := [], Zs := [], nTimesteps := 0, currentStep := 0,
    acc := Acc.noneV, gWaa := 0, gWax := 0, gBa := 0, gBx := 0 }

/-- One forward call followed by two backward calls: one more backward call
than there are outstanding forward calls. -/
def secondBackwardRun : Except String (ℚ × State) :=
  let s1 := forward exAct exInit 1
  (backward exActGrad s1 1).bind fun r => backward exActGrad r.2 1

/-- The gradient a backward call handed back, if it did not abort. -/
def returnedGrad (e : Except String (ℚ × State)) : Option ℚ :=
  match e with
  | Except.ok rs => some rs.1
  | Except.error _ => none

/-- The current_step cursor of the resulting state, if the call did not
abort. -/
def returnedStep (e : Except String (ℚ × State)) : Option ℤ :=
  match e with
  | Except.ok rs => some rs.2.currentStep
  | Except.error _ => none

/-- A full sequence (forward, backward), then flush_gradients, then a fresh
sequence's forward and first backward call. -/
def afterFlushBackwardRun : Except String (ℚ × State) :=
  let s1 := forward exAct exInit 1
  (backward exActGrad s1 1).bind fun r =>
    (flushGradients r.2).bind fun s3 =>
      backward exActGrad (forward exAct s3 1) 1

end RNNCellSM

namespace LayerContract

/-- A numpy array: its shape and its row-major flat data. -/
structure Tensor where
  shape : List ℕ
  data : List ℚ
deriving DecidableEq

/-- np.zeros_like: zeros of the same shape as the given array. -/
def zerosLike (t : Tensor) : Tensor :=
  { shape := t.shape, data := t.data.map fun _ => 0 }

/-- A Python dict from names to arrays, in insertion order. -/
abbrev KVStore : Type := List (String × Tensor)

/-- Dictionary lookup. -/
def lookupKey (k : String) : KVStore → Option Tensor
  | [] => none
  | (a, t) :: rest => if a = k then some t else lookupKey k rest

/-- Dictionary assignment to an existing key (keys are unique in a dict,
so replacing the first occurrence is replacing the entry). -/
def setKey (k : String) (t : Tensor) : KVStore → KVStore
  | [] => []
  | (a, u) :: rest =>
      if a = k then (a, t) :: rest else (a, u) :: setKey k t rest

/-- The bookkeeping state every layer shares (LayerBase): the trainable
flag, the cached inputs X, the parameters, the gradients, and the derived
variables (whose values flush_gradients resets to None). -/
structure LState where
  trainable : Bool
  Xs : List Tensor
  params : KVStore
  grads : KVStore
  derived : List (String × Option Tensor)
deriving DecidableEq

/-- LayerBase.flush_gradients: asserts trainable, resets X to an empty
list, sets every derived variable to None, and replaces every gradient by
np.zeros_like of its current value. -/
def flushGradients (s : LState) : Except String LState :=
  if s.trainable then
    Except.ok { s with Xs := [],
                       derived := s.derived.map fun kv => (kv.1, none),
                       grads := s.grads.map fun kv => (kv.1, zerosLike kv.2) }
  else Except.error "AssertionError: Layer is frozen"

/-- The parameter-update loop of LayerBase.update: for every (k, v) in
gradients, if k is a parameter key, replace that parameter by
optimizer(parameters[k], v, k). -/
def updateParams (opt : Tensor → Tensor → String → Tensor)
    (grads params : KVStore) : KVStore :=
  grads.foldl
    (fun ps kv =>
      match lookupKey kv.1 ps with
      | some pv => setKey kv.1 (opt pv kv.2 kv.1) ps
      | none => ps)
    params

/-- LayerBase.update: asserts trainable, runs the optimizer loop over the
gradients, then calls flush_gradients. -/
def update (opt : Tensor → Tensor → String → Tensor) (s : LState) :
    Except String LState :=
  if s.trainable then
    flushGradients { s with params := updateParams opt s.grads s.params }
  else Except.error "AssertionError: Layer is frozen"

/-- A small trainable layer state: one parameter W with a matching-shape
gradient, one derived variable, one cached input. -/
def exLState : LState :=
  { trainable := true, Xs := [{ shape := [1], data := [2] }],
    params := [("W", { shape := [1], data := [5] })],
    grads := [("W", { shape := [1], data := [3] })],
    derived := [("Z", some { shape := [1], data := [7] })] }

/-- An optimizer collaborator that keeps the old parameter value. -/
def exOpt : Tensor → Tensor → String → Tensor := fun p _ _ => p

/-- A layer state as RestrictedBoltzmannMachine.backward leaves it for a
2-example batch: the b_in parameter has shape (1, 1) while the stored b_in
gradient V - p_V_prime has shape (2, 1). -/
def rbmLikeState : LState :=
  { trainable := true, Xs := [],
    params := [("b_in", { shape := [1, 1], data := [0] })],
    grads := [("b_in", { shape := [2, 1], data := [1, 2] })],
    derived := [] }

/-- The b_in gradient left behind by update() on that state. -/
def rbmLikeGradAfter : Option Tensor :=
  match update exOpt rbmLikeState with
  | Except.ok s' => lookupKey "b_in" s'.grads
  | Except.error _ => none

end LayerContract

namespace FC

open LayerContract

/-- Number of rows of a 2-D array. -/
def tRows (t : Tensor) : ℕ := t.shape.getD 0 0

/-- Number of columns of a 2-D array. -/
def tCols (t : Tensor) : ℕ := t.shape.getD 1 0

/-- Entry (i, j) of a row-major 2-D array. -/
def tGet (t : Tensor) (i j : ℕ) : ℚ := t.data.getD (i * tCols t + j) 0

/-- np.dot of two 2-D arrays. -/
def matMul (A B : Tensor) : Tensor :=
  { shape := [tRows A, tCols B],
    data := (List.range (tRows A * tCols B)).map fun idx =>
      ∑ k ∈ Finset.range (tCols A),
        tGet A (idx / tCols B) k * tGet B k (idx % tCols B) }

/-- Matrix transpose. -/
def transposeT (t : Tensor) : Tensor :=
  { shape := [tCols t, tRows t],
    data := (List.range (tCols t * tRows t)).map fun idx =>
      tGet t (idx % tRows t) (idx / tRows t) }

/-- Adding a (1, n) bias row to every row of a 2-D array (numpy broadcast). -/
def addRowVec (Z b : Tensor) : Tensor :=
  { shape := Z.shape,
    data := (List.range Z.data.length).map fun idx =>
      Z.data.getD idx 0 + tGet b 0 (idx % tCols Z) }

/-- Elementwise application of a scalar function. -/
def emap (f : ℚ → ℚ) (t : Tensor) : Tensor := { t with data := t.data.map f }

/-- Elementwise product of same-shape arrays. -/
def hadamard (A B : Tensor) : Tensor :=
  { shape := A.shape,
    data := (List.range A.data.length).map fun idx =>
      A.data.getD idx 0 * B.data.getD idx 0 }

/-- Column sums, keepdims: dZ.sum(axis=0, keepdims=True). -/
def colSum (t : Tensor) : Tensor :=
  { shape := [1, tCols t],
    data := (List.range (tCols t)).map fun j =>
      ∑ i ∈ Finset.range (tRows t), tGet t i j }

/-- FullyConnected layer state: trainable flag, cached input, parameters
(W and b), gradients, and the derived variables Z and Y. -/
structure FCState where
  trainable : Bool
  Xc : Option Tensor
  params : KVStore
  grads : KVStore
  derivedZ : Option Tensor
  derivedY : Option Tensor
deriving DecidableEq

/-- Parameter access with a default empty array. -/
def getParam (s : FCState) (k : String) : Tensor :=
  (lookupKey k s.params).getD { shape := [], data := [] }

/-- FullyConnected.forward: caches X, computes Z = X.W + b and
Y = act_fn(Z), and stores Z and Y as the derived variables. -/
def fcForward (act : ℚ → ℚ) (s : FCState) (X : Tensor) : FCState × Tensor :=
  let W := getParam s "W"
  let b := getParam s "b"
  let Z := addRowVec (matMul X W) b
  let Y := emap act Z
  ({ s with Xc := some X, derivedZ := some Z, derivedY := some Y }, Y)

/-- FullyConnected.backward: asserts trainable and a cached input, computes
dZ = dLdY * act_fn.grad(Z), dW = X^T.dZ, dB = column sums of dZ,
dX = dZ.W^T, and REPLACES the gradients dict by one holding the entries
W, b, Z and Y (the latter two are cache entries that are not parameters). -/
def fcBackward (actGrad : ℚ → ℚ) (s : FCState) (dLdY : Tensor) :
    Except String (Tensor × FCState) :=
  if ¬ s.trainable then Except.error "AssertionError: Layer is frozen"
  else
    match s.Xc, s.derivedZ with
    | some X, some Z =>
        let W := getParam s "W"
        let dZ := hadamard dLdY (emap actGrad Z)
        let dW := matMul (transposeT X) dZ
        let dB := colSum dZ
        let dX := matMul dZ (transposeT W)
        Except.ok (dX,
          { s with grads := [("W", dW), ("b", dB), ("Z", dZ), ("Y", dLdY)] })
    | _, _ => Except.error "AssertionError"

/-- LayerBase.flush_gradients specialized to the FullyConnected state. -/
def fcFlush (s : FCState) : Except String FCState :=
  if s.trainable then
    Except.ok { s with Xc := none, derivedZ := none, derivedY := none,
                       grads := s.grads.map fun kv => (kv.1, zerosLike kv.2) }
  else Except.error "AssertionError: Layer is frozen"

/-- LayerBase.update specialized to the FullyConnected state. -/
def fcUpdate (opt : Tensor → Tensor → String → Tensor) (s : FCState) :
    Except String FCState :=
  if s.trainable then
    fcFlush { s with params := updateParams opt s.grads s.params }
  else Except.error "AssertionError: Layer is frozen"

/-- A freshly initialized 1-in/1-out FullyConnected layer with W = [[1]]
and b = [[0]], gradients zeroed. -/
def fcEx0 : FCState :=
  { trainable := true, Xc := none,
    params := [("W", { shape := [1, 1], data := [1] }),
               ("b", { shape := [1, 1], data := [0] })],
    grads := [("W", { shape := [1, 1], data := [0] }),
              ("b", { shape := [1, 1], data := [0] })],
    derivedZ := none, derivedY := none }

/-- The layer state after forward on X = [[1]] and backward on
dLdY = [[1]] with the identity activation. -/
def fcExRun : Except String (Tensor × FCState) :=
  fcBackward (fun _ => 1)
    (fcForward (fun x => x) fcEx0 { shape := [1, 1], data := [1] }).1
    { shape := [1, 1], data := [1] }

/-- Gradient keys of the state fcExRun produced. -/
def fcExGradKeys : List String :=
  match fcExRun with
  | Except.ok rs => rs.2.grads.map Prod.fst
  | Except.error _ => []

/-- Parameter keys of the state fcExRun produced. -/
def fcExParamKeys : List String :=
  match fcExRun with
  | Except.ok rs => rs.2.params.map Prod.fst
  | Except.error _ => []

end FC

namespace Conv2DGrad

/-- Conv2D layer state around a backward call: the trainable flag, the
data the call reads, and the stored gradients. -/
structure LayerSt where
  trainable : Bool
  ctx : Ctx
  gradW : Tensor4
  gradB : ℕ → ℚ

/-- Conv2D.backward as a state transition: unlike LayerBase.update and
LayerBase.flush_gradients it performs NO trainable assertion — it
unconditionally computes the gradients, stores them, and returns the input
gradient. -/
def conv2dBackwardStep (s : LayerSt) : Except String (Tensor4 × LayerSt) :=
  Except.ok (fun m r t q => vec_dX s.ctx m r t q,
    { s with gradW := fun u v q ch => vec_dW s.ctx u v q ch,
             gradB := fun ch => vec_dB s.ctx ch })

/-- Whether an Except value is a success. -/
def exOk {ε α : Type} : Except ε α → Bool
  | Except.ok _ => true
  | Except.error _ => false

/-- A concrete 1 x 1 x 1 x 1 Conv2D context. -/
def exCtx : Ctx :=
  { nEx := 1, outRows := 1, outCols := 1, outCh := 1, fr := 1, fc := 1,
    inCh := 1, inRows := 1, inCols := 1, s := 1, d := 0, pr1 := 0, pc1 := 0,
    X := fun _ _ _ _ => 1, W := fun _ _ _ _ => 5, Z := fun _ _ _ _ => 1,
    dLdY := fun _ _ _ _ => 1, actGrad := fun _ => 1 }

/-- A frozen Conv2D layer holding the concrete context. -/
def frozenConv : LayerSt :=
  { trainable := false, ctx := exCtx, gradW := fun _ _ _ _ => 0,
    gradB := fun _ => 0 }

/-- The weights after running backward on a layer state (unchanged: backward
never writes the parameters). -/
def weightsAfterBackward (s : LayerSt) : Tensor4 :=
  match conv2dBackwardStep s with
  | Except.ok rs => rs.2.ctx.W
  | Except.error _ => fun _ _ _ _ => 0

/-- A frozen layer-contract state with one parameter and one gradient. -/
def frozenL : LayerContract.LState :=
  { trainable := false, Xs := [],
    params := [("W", { shape := [1], data := [5] })],
    grads := [("W", { shape := [1], data := [3] })],
    derived := [] }

end Conv2DGrad

namespace Pool2DMax

/-- The data a Pool2D max-mode backward call works with: the trainable
flag, the dimensions, the stride, the resolved padding (pad2D with an
integer pad p resolves to (p, p, p, p) — modelled from the spec, pad2D is
not under src/), the output size cached by forward, the cached UNPADDED
input X, and the upstream gradient. -/
structure PP where
  trainable : Bool
  nEx : ℕ
  inRows : ℕ
  inCols : ℕ
  nCh : ℕ
  fr : ℕ
  fc : ℕ
  s : ℕ
  pr1 : ℕ
  pr2 : ℕ
  pc1 : ℕ
  pc2 : ℕ
  outRows : ℕ
  outCols : ℕ
  X : ℕ → ℕ → ℕ → ℕ → ℚ
  dLdY : ℕ → ℕ → ℕ → ℕ → ℚ

/-- The index list a Python slice [lo:hi] selects from an axis of length n:
in-range indices in ascending order, silently truncated at n. -/
def sliceIdx (lo hi n : ℕ) : List ℕ :=
  (List.range n).filter fun r => lo ≤ r ∧ r < hi

/-- The (row, column) index pairs of a 2-D slice in row-major order. -/
def windowPairs (rows cols : List ℕ) : List (ℕ × ℕ) :=
  rows.flatMap fun r => cols.map fun t => (r, t)

/-- np.max of a flat value list (only meaningful for nonempty lists; the
caller raises before calling this on an empty window). -/
def listMax : List ℚ → ℚ
  | [] => 0
  | v :: vs => vs.foldl max v

/-- One iteration of the Pool2D max-mode backward loop at window
(m, i, j, c).  The source reads the window xi from the UNPADDED self.X
using the padded-coordinate bounds (i*s, i*s + fr) x (j*s, j*s + fc):
np.max raises on the zero-size windows this produces near the trailing
edge whenever padding is positive.  The single-True argmax mask (first
row-major position attaining the maximum) is then added into the slice of
the zero-initialized PADDED gradient volume under numpy broadcasting
rules. -/
def processWindow (p : PP) (dX : ℕ → ℕ → ℕ → ℕ → ℚ) (m i j c : ℕ) :
    Except String (ℕ → ℕ → ℕ → ℕ → ℚ) :=
  let rows := sliceIdx (i * p.s) (i * p.s + p.fr) p.inRows
  let cols := sliceIdx (j * p.s) (j * p.s + p.fc) p.inCols
  let pairs := windowPairs rows cols
  if pairs.isEmpty then
    Except.error "ValueError: zero-size array to reduction operation maximum"
  else
    let mx := listMax (pairs.map fun rt => p.X m rt.1 rt.2 c)
    let fst := (pairs.find? fun rt => p.X m rt.1 rt.2 c = mx).getD (0, 0)
    let tRows := sliceIdx (i * p.s) (i * p.s + p.fr) (p.inRows + p.pr1 + p.pr2)
    let tCols := sliceIdx (j * p.s) (j * p.s + p.fc) (p.inCols + p.pc1 + p.pc2)
    if (rows.length = tRows.length ∨ rows.length = 1) ∧
        (cols.length = tCols.length ∨ cols.length = 1) then
      Except.ok fun m' r t c' =>
        dX m' r t c' +
          if m' = m ∧ c' = c ∧ r ∈ tRows ∧ t ∈ tCols then
            let ri := if rows.length = 1 then 0 else tRows.indexOf r
            let ci := if cols.length = 1 then 0 else tCols.indexOf t
            if (rows.getD ri 0, cols.getD ci 0) = fst then p.dLdY m i j c else 0
          else 0
    else Except.error "ValueError: operands could not be broadcast together"

/-- Pool2D.backward in max mode: asserts trainable, then loops over
(example, output row, output col, channel) accumulating each window's
masked gradient into the padded gradient volume. -/
def pool2dMaxBackward (p : PP) : Except String (ℕ → ℕ → ℕ → ℕ → ℚ) :=
  if ¬ p.trainable then Except.error "AssertionError: Layer is frozen"
  else
    ((List.range p.nEx).flatMap fun m =>
      (List.range p.outRows).flatMap fun i =>
        (List.range p.outCols).flatMap fun j =>
          (List.range p.nCh).map fun c => (m, i, j, c)).foldlM
      (fun dX w => processWindow p dX w.1 w.2.1 w.2.2.1 w.2.2.2)
      fun _ _ _ _ => 0

/-- The error message of a failed backward call, if any. -/
def errMsg {α : Type} : Except String α → Option String
  | Except.error e => some e
  | Except.ok _ => none

/-- A 2 x 2 max-pool layer over a 2 x 2 input with stride 1 and pad 1:
out_rows = out_cols = floor(1 + (2 + 2 - 2) / 1) = 3. -/
def exPP : PP :=
  { trainable := true, nEx := 1, inRows := 2, inCols := 2, nCh := 1,
    fr := 2, fc := 2, s := 1, pr1 := 1, pr2 := 1, pc1 := 1, pc2 := 1,
    outRows := 3, outCols := 3, X := fun _ _ _ _ => 1,
    dLdY := fun _ _ _ _ => 1 }

end Pool2DMax

namespace LSTMStep

/-- Matrix embedded as a total function from (row, column) indices. -/
abbrev Mat : Type := ℕ → ℕ → ℚ

/-- LSTMCell parameters and collaborators: the dimensions, the four weight
matrices of shape (n_out + n_in, n_out), the four biases, and the
activation / gate collaborator pairs (fn, grad). -/
structure P where
  nIn : ℕ
  nOut : ℕ
  nEx : ℕ
  Wf : Mat
  Wu : Mat
  Wc : Mat
  Wo : Mat
  bf : ℕ → ℚ
  bu : ℕ → ℚ
  bc : ℕ → ℚ
  bo : ℕ → ℚ
  actFn : ℚ → ℚ
  actGrad : ℚ → ℚ
  gateFn : ℚ → ℚ
  gateGrad : ℚ → ℚ

/-- First-timestep gate input Zt = np.hstack([A_prev, Xt]) with A_prev the
all-zero initial hidden state: columns below n_out are zero, the rest are
the input. -/
def Zt (p : P) (Xt : Mat) : Mat := fun m k =>
  if k < p.nOut then 0 else Xt m (k - p.nOut)

/-- A gate pre-activation np.dot(Zt, W) + b. -/
def preact (p : P) (W : Mat) (b : ℕ → ℚ) (Xt : Mat) : Mat := fun m j =>
  (∑ k ∈ Finset.range (p.nOut + p.nIn), Zt p Xt m k * W k j) + b j

/-- Forget gate Gf = gate_fn(Zt.Wf + bf). -/
def Gf (p : P) (Xt : Mat) : Mat := fun m j =>
  p.gateFn (preact p p.Wf p.bf Xt m j)

/-- Update gate Gu = gate_fn(Zt.Wu + bu). -/
def Gu (p : P) (Xt : Mat) : Mat := fun m j =>
  p.gateFn (preact p p.Wu p.bu Xt m j)

/-- Output gate Go = gate_fn(Zt.Wo + bo). -/
def Go (p : P) (Xt : Mat) : Mat := fun m j =>
  p.gateFn (preact p p.Wo p.bo Xt m j)

/-- Candidate cell state Cc = act_fn(Zt.Wc + bc). -/
def Cc (p : P) (Xt : Mat) : Mat := fun m j =>
  p.actFn (preact p p.Wc p.bc Xt m j)

/-- The all-zero initial cell state of the first timestep. -/
def Cprev : Mat := fun _ _ => 0

/-- Cell state Ct = Gf * C_prev + Gu * Cc. -/
def Ct (p : P) (Xt : Mat) : Mat := fun m j =>
  Gf p Xt m j * Cprev m j + Gu p Xt m j * Cc p Xt m j

/-- Hidden state At = Go * act_fn(Ct). -/
def At (p : P) (Xt : Mat) : Mat := fun m j =>
  Go p Xt m j * p.actFn (Ct p Xt m j)

/-- Backward at the first (and only) timestep: dA = dLdAt + dA_acc with the
accumulator still None, hence zero. -/
def dAt (dLdAt : Mat) : Mat := fun m j => dLdAt m j + 0

/-- dC = dC_acc + dA * Go * act_fn.grad(Ct), with the accumulator zero. -/
def dCt (p : P) (Xt dLdAt : Mat) : Mat := fun m j =>
  0 + dAt dLdAt m j * Go p Xt m j * p.actGrad (Ct p Xt m j)

/-- Gradient wrt the update-gate input as the source computes it:
dGut = dC * Cc * gate_fn.grad(np.dot(Zt, Wu) + bo) — the source adds bo,
not bu, when recomputing this pre-activation in backward. -/
def dGut (p : P) (Xt dLdAt : Mat) : Mat := fun m j =>
  dCt p Xt dLdAt m j * Cc p Xt m j * p.gateGrad (preact p p.Wu p.bo Xt m j)

/-- Gradient wrt the forget-gate input as the source computes it:
dGft = dC * C_prev * gate_fn.grad(np.dot(Zt, Wf) + bo) — again with bo in
place of bf. -/
def dGft (p : P) (Xt dLdAt : Mat) : Mat := fun m j =>
  dCt p Xt dLdAt m j * Cprev m j * p.gateGrad (preact p p.Wf p.bo Xt m j)

/-- The Wu gradient the source stores for this single step:
gradients[Wu] += np.dot(Zt.T, dGut). -/
def gradWu (p : P) (Xt dLdAt : Mat) : Mat := fun a b =>
  ∑ m ∈ Finset.range p.nEx, Zt p Xt m a * dGut p Xt dLdAt m b

/-- Modelled from the spec: the update-gate local derivative is evaluated
at the pre-activation Zt.Wu + bu (the forward pass's own gate input), which
is what the claim and section 4.7 of the spec state. -/
def dGutSpec (p : P) (Xt dLdAt : Mat) : Mat := fun m j =>
  dCt p Xt dLdAt m j * Cc p Xt m j * p.gateGrad (preact p p.Wu p.bu Xt m j)

/-- The Wu gradient with the spec's pre-activation. -/
def gradWuSpec (p : P) (Xt dLdAt : Mat) : Mat := fun a b =>
  ∑ m ∈ Finset.range p.nEx, Zt p Xt m a * dGutSpec p Xt dLdAt m b

/-- A concrete scalar LSTMCell (n_in = n_out = n_ex = 1) with polynomial
collaborators: gate_fn x = x^2 with derivative 2x, act_fn the identity.
bu = bc = 1, bo = bf = 0, and only Wo has a nonzero entry. -/
def exP : P :=
  { nIn := 1, nOut := 1, nEx := 1,
    Wf := fun _ _ => 0, Wu := fun _ _ => 0, Wc := fun _ _ => 0,
    Wo := fun k _ => if k = 1 then 1 else 0,
    bf := fun _ => 0, bu := fun _ => 1, bc := fun _ => 1, bo := fun _ => 0,
    actFn := fun x => x, actGrad := fun _ => 1,
    gateFn := fun x => x * x, gateGrad := fun x => 2 * x }

/-- Concrete input at the single timestep. -/
def exXt : Mat := fun _ _ => 1

/-- Concrete upstream gradient. -/
def exdLdA : Mat := fun _ _ => 1

/-- The loss (the hidden state the upstream gradient 1 flows from) as a
function of the single effective Wu entry, everything else as in exP. -/
def lossAt (w : ℚ) : ℚ :=
  At { exP with Wu := fun k j => if k = 1 ∧ j = 0 then w else 0 } exXt 0 0

end LSTMStep

namespace Conv2DGrad

/-- Rotating the innermost summation index of a triple sum to the outside. -/
theorem sum_rotate3 {A B C : ℕ} (f : ℕ → ℕ → ℕ → ℚ) :
    (∑ a ∈ Finset.range A, ∑ b ∈ Finset.range B, ∑ c ∈ Finset.range C, f a b c)
      = ∑ c ∈ Finset.range C, ∑ a ∈ Finset.range A, ∑ b ∈ Finset.range B, f a b c := by
  calc (∑ a ∈ Finset.range A, ∑ b ∈ Finset.range B, ∑ c ∈ Finset.range C, f a b c)
      = ∑ a ∈ Finset.range A, ∑ c ∈ Finset.range C, ∑ b ∈ Finset.range B, f a b c :=
        Finset.sum_congr rfl fun _ _ => Finset.sum_comm
    _ = ∑ c ∈ Finset.range C, ∑ a ∈ Finset.range A, ∑ b ∈ Finset.range B, f a b c :=
        Finset.sum_comm

/-- A guarded sum equals the sum of the guarded terms. -/
theorem ite_sum_range {P : Prop} [Decidable P] {n : ℕ} (g : ℕ → ℚ) :
    (if P then ∑ x ∈ Finset.range n, g x else 0)
      = ∑ x ∈ Finset.range n, if P then g x else 0 := by
  split_ifs with h
  · rfl
  · simp

/-- Claim C1: for every Conv2D layer, cached input X and upstream gradient
dLdY, the vectorized backward pass built on im2col/col2im returns the same
input gradient and stores the same weight and bias gradients as the naive
explicit nested-loop implementation on the same inputs. -/
theorem conv2d_vectorized_backward_matches_naive (c : Ctx) :
    (∀ u v q ch, vec_dW c u v q ch = naive_dW c u v q ch) ∧
    (∀ ch, vec_dB c ch = naive_dB c ch) ∧
    (∀ m r t q, vec_dX c m r t q = naive_dX c m r t q) := by
  refine ⟨fun u v q ch => ?_, fun ch => ?_, fun m r t q => ?_⟩
  · unfold vec_dW naive_dW dLdZcol im2colX
    rw [sum_rotate3]
    exact Finset.sum_congr rfl fun m _ => Finset.sum_congr rfl fun i _ =>
      Finset.sum_congr rfl fun j _ => mul_comm _ _
  · unfold vec_dB naive_dB dLdZcol
    exact sum_rotate3 _
  · unfold vec_dX naive_dX col2imAdd naive_dXpad dXcol wCol dLdZcol
    simp only [ite_sum_range]
    rw [sum_rotate3]
    refine Finset.sum_congr rfl fun i _ => ?_
    rw [sum_rotate3]
    refine Finset.sum_congr rfl fun j _ => ?_
    rw [sum_rotate3]

end Conv2DGrad

namespace RBM

/-- Claim C3: after forward(V) (which runs K = self.K Gibbs steps) followed
by backward(), the stored gradients are exactly V - p_V', p_H - p_H', and
V^T . p_H - p_V'^T . p_H', where p_H, p_V', p_H' are the probability
statistics cached by that forward call. -/
theorem rbm_backward_stores_cd_gradients (p : P) (V R0 : Mat) (Rs : ℕ → Mat)
    (selfK : ℕ) (_hK : 1 ≤ selfK) :
    ∀ m i j a b,
      gradBIn p V R0 Rs selfK selfK m i
          = V m i - pVp p V R0 Rs selfK (selfK - 1) m i ∧
      gradBOut p V R0 Rs selfK selfK m j
          = pH p V m j - pHp p V R0 Rs selfK (selfK - 1) m j ∧
      gradW p V R0 Rs selfK selfK a b
          = (∑ mm ∈ Finset.range p.nEx, V mm a * pH p V mm b)
            - ∑ mm ∈ Finset.range p.nEx,
                pVp p V R0 Rs selfK (selfK - 1) mm a
                  * pHp p V R0 Rs selfK (selfK - 1) mm b := by
  intro m i j a b
  exact ⟨rfl, rfl, rfl⟩

/-- Witness for the RBM gradient theorem at the concrete 1 x 1 instance
with self.K = 1. -/
theorem rbm_backward_stores_cd_gradients_witness :
    1 ≤ 1 ∧
      gradBIn exP exV exR (fun _ => exR) 1 1 0 0
        = exV 0 0 - pVp exP exV exR (fun _ => exR) 1 0 0 0 :=
  ⟨by decide,
    (rbm_backward_stores_cd_gradients exP exV exR (fun _ => exR) 1 (by decide)
      0 0 0 0 0).1⟩

/-- The base case of the forward Gibbs chain, stated for rewriting. -/
theorem Hp_zero (p : P) (V R0 : Mat) (Rs : ℕ → Mat) (selfK : ℕ) :
    Hp p V R0 Rs selfK 0 = sample R0 (pH p V) := rfl

/-- One step of the forward Gibbs chain, stated for rewriting. -/
theorem Hp_succ (p : P) (V R0 : Mat) (Rs : ℕ → Mat) (selfK k : ℕ) :
    Hp p V R0 Rs selfK (k + 1)
      = if (k : ℤ) ≠ (selfK : ℤ) - 1 then sample (Rs k) (pHp p V R0 Rs selfK k)
        else pHp p V R0 Rs selfK k := rfl

/-- The base case of the spec-described Gibbs chain, stated for rewriting. -/
theorem HpSpec_zero (p : P) (V R0 : Mat) (Rs : ℕ → Mat) (K : ℕ) :
    HpSpec p V R0 Rs K 0 = sample R0 (pH p V) := rfl

/-- One step of the spec-described Gibbs chain, stated for rewriting. -/
theorem HpSpec_succ (p : P) (V R0 : Mat) (Rs : ℕ → Mat) (K k : ℕ) :
    HpSpec p V R0 Rs K (k + 1)
      = if (k : ℤ) ≠ (K : ℤ) - 1 then
          sample (Rs k)
            (fun m j =>
              p.sigma ((∑ i ∈ Finset.range p.nIn, pVpSpec p V R0 Rs K k m i * p.W i j)
                + p.bOut j))
        else fun m j =>
          p.sigma ((∑ i ∈ Finset.range p.nIn, pVpSpec p V R0 Rs K k m i * p.W i j)
            + p.bOut j) := rfl

/-- Claim C6 is violated by the source: the resampling test compares the
loop index against self.K - 1 rather than against the K actually being run.
At the concrete instance (self.K = 1, forward called with K = 2) the hidden
state after the non-final step 0 is kept as raw probabilities even though
the binary draw the claim requires differs from them; the hidden state
after the final step is resampled to 0 instead of being kept at its raw
probability 1/16; and the cached reconstruction p_V' is 1/8 where the
spec-described chain yields 0. -/
theorem rbm_forward_gibbs_test_uses_selfK_not_K :
    Hp exP exV exR (fun _ => exR) 1 1 0 0
        = pHp exP exV exR (fun _ => exR) 1 0 0 0 ∧
      sample exR (pHp exP exV exR (fun _ => exR) 1 0) 0 0
          ≠ pHp exP exV exR (fun _ => exR) 1 0 0 0 ∧
      Hp exP exV exR (fun _ => exR) 1 2 0 0 = 0 ∧
      pHp exP exV exR (fun _ => exR) 1 1 0 0 = 1/16 ∧
      pVp exP exV exR (fun _ => exR) 1 1 0 0 = 1/8 ∧
      pVpSpec exP exV exR (fun _ => exR) 2 1 0 0 = 0 ∧
      (1/8 : ℚ) ≠ 0 := by
  refine ⟨?_, ?_, ?_, ?_, ?_, ?_, by norm_num⟩ <;>
    norm_num [Hp_zero, Hp_succ, HpSpec_zero, HpSpec_succ, pVp, pHp, pVpSpec,
      sample, pH, exP, exV, exR, Finset.sum_range_one]

end RBM

namespace RNNCellSM

/-- Claim C5 is violated by the source: calling RNNCell.backward more times
than there are outstanding forward calls does NOT abort.  After one forward
call, a second backward call decrements the step cursor to -1 and Python's
negative list indexing silently wraps around to the last cached timestep,
so the call returns a gradient (here 2) instead of failing. -/
theorem rnncell_extra_backward_returns_gradient :
    returnedGrad secondBackwardRun = some 2 ∧
      returnedStep secondBackwardRun = some (-1) := by
  constructor <;>
    norm_num [returnedGrad, returnedStep, secondBackwardRun, backward, forward,
      pyGet, exAct, exActGrad, exInit, Except.bind, flushGradients]

/-- Claim C9 is violated by the source: flush_gradients resets
dLdA_accumulator to an empty Python list rather than None, so the first
backward call of the next sequence does not reinitialize it to zero — numpy
fails to broadcast dLdAt + [] and the call aborts instead of carrying a
zero contribution. -/
theorem rnncell_accumulator_not_none_after_flush :
    afterFlushBackwardRun
      = Except.error "ValueError: operands could not be broadcast together" := by
  norm_num [afterFlushBackwardRun, backward, forward,
    pyGet, exAct, exActGrad, exInit, Except.bind, flushGradients]

end RNNCellSM

namespace LayerContract

/-- Lookup through a value-mapping of a store. -/
theorem lookupKey_map_value (f : Tensor → Tensor) (k : String) :
    ∀ st : KVStore,
      lookupKey k (st.map fun kv => (kv.1, f kv.2)) = (lookupKey k st).map f
  | [] => rfl
  | (a, t) :: rest => by
      by_cases h : a = k <;>
        simp [lookupKey, h, lookupKey_map_value f k rest]

/-- Keys survive a value-mapping of a store. -/
theorem keys_map_value (f : Tensor → Tensor) :
    ∀ st : KVStore,
      (st.map fun kv => (kv.1, f kv.2)).map Prod.fst = st.map Prod.fst
  | [] => rfl
  | _ :: rest => by simp [keys_map_value f rest]

/-- A successful lookup names an entry of the store. -/
theorem lookupKey_mem {k : String} {t : Tensor} :
    ∀ {st : KVStore}, lookupKey k st = some t → (k, t) ∈ st := by
  intro st
  induction st with
  | nil => intro h; simp [lookupKey] at h
  | cons kv rest ih =>
      intro h
      obtain ⟨a, u⟩ := kv
      by_cases hak : a = k
      · subst hak
        simp [lookupKey] at h
        simp [h]
      · simp [lookupKey, hak] at h
        exact List.mem_cons_of_mem _ (ih h)

/-- Lookup of an absent key fails. -/
theorem lookupKey_eq_none_of_not_mem {k : String} :
    ∀ {st : KVStore}, k ∉ st.map Prod.fst → lookupKey k st = none := by
  intro st
  induction st with
  | nil => intro _; rfl
  | cons kv rest ih =>
      intro h
      obtain ⟨a, u⟩ := kv
      have h1 : ¬ a = k := fun he => h (by simp [he])
      have h2 : k ∉ rest.map Prod.fst := fun hm => h (by simp [hm])
      simp only [lookupKey, if_neg h1]
      exact ih h2

/-- Lookup after assigning the same key. -/
theorem lookupKey_setKey_self (k : String) (t : Tensor) :
    ∀ st : KVStore,
      lookupKey k (setKey k t st) = (lookupKey k st).map fun _ => t
  | [] => rfl
  | (a, u) :: rest => by
      by_cases h : a = k <;>
        simp [setKey, lookupKey, h, lookupKey_setKey_self k t rest]

/-- Lookup after assigning a different key. -/
theorem lookupKey_setKey_ne {k k' : String} (h : k' ≠ k) (t : Tensor) :
    ∀ st : KVStore, lookupKey k' (setKey k t st) = lookupKey k' st
  | [] => rfl
  | (a, u) :: rest => by
      by_cases hak : a = k
      · subst hak
        have hne : ¬ a = k' := fun he => h he.symm
        show lookupKey k'
            (if a = a then (a, t) :: rest else (a, u) :: setKey a t rest)
          = lookupKey k' ((a, u) :: rest)
        rw [if_pos rfl]
        show (if a = k' then some t else lookupKey k' rest)
          = if a = k' then some u else lookupKey k' rest
        rw [if_neg hne, if_neg hne]
      · by_cases hak' : a = k'
        · simp [setKey, lookupKey, hak, hak', h, lookupKey_setKey_ne h t rest]
        · simp [setKey, lookupKey, hak, hak', lookupKey_setKey_ne h t rest]

/-- Keys survive an assignment. -/
theorem keys_setKey (k : String) (t : Tensor) :
    ∀ st : KVStore, (setKey k t st).map Prod.fst = st.map Prod.fst
  | [] => rfl
  | (a, u) :: rest => by
      by_cases h : a = k <;> simp [setKey, h, keys_setKey k t rest]

/-- What the optimizer loop of LayerBase.update leaves under each key:
keys in both stores get the optimizer applied once; parameter keys with no
gradient are untouched; non-parameter keys are never created. -/
theorem lookupKey_updateParams (opt : Tensor → Tensor → String → Tensor) :
    ∀ grads : KVStore, (grads.map Prod.fst).Nodup →
      ∀ (params : KVStore) (k : String),
        lookupKey k (updateParams opt grads params)
          = match lookupKey k params, lookupKey k grads with
            | some p, some g => some (opt p g k)
            | some p, none => some p
            | none, _ => none := by
  intro grads
  induction grads with
  | nil =>
      intro _ params k
      cases h : lookupKey k params <;> simp [updateParams, lookupKey, h]
  | cons kv gs ih =>
      intro hnd params k
      obtain ⟨k0, g0⟩ := kv
      have hnd1 : (k0 :: gs.map Prod.fst).Nodup := by simpa using hnd
      have hnotin : k0 ∉ gs.map Prod.fst := (List.nodup_cons.mp hnd1).1
      have hgs : (gs.map Prod.fst).Nodup := (List.nodup_cons.mp hnd1).2
      cases hp : lookupKey k0 params with
      | some pv =>
          have step :
              updateParams opt ((k0, g0) :: gs) params
                = updateParams opt gs (setKey k0 (opt pv g0 k0) params) := by
            simp [updateParams, hp]
          rw [step, ih hgs]
          by_cases hk : k = k0
          · subst hk
            have hcons : lookupKey k ((k, g0) :: gs) = some g0 := by
              show (if k = k then some g0 else lookupKey k gs) = some g0
              exact if_pos rfl
            rw [lookupKey_setKey_self, hp, lookupKey_eq_none_of_not_mem hnotin,
              hcons]
            rfl
          · have hcons : lookupKey k ((k0, g0) :: gs) = lookupKey k gs := by
              show (if k0 = k then some g0 else lookupKey k gs) = lookupKey k gs
              exact if_neg fun he => hk he.symm
            rw [lookupKey_setKey_ne hk, hcons]
      | none =>
          have step :
              updateParams opt ((k0, g0) :: gs) params
                = updateParams opt gs params := by
            simp [updateParams, hp]
          rw [step, ih hgs]
          by_cases hk : k = k0
          · subst hk
            rw [hp, lookupKey_eq_none_of_not_mem hnotin]
          · have hcons : lookupKey k ((k0, g0) :: gs) = lookupKey k gs := by
              show (if k0 = k then some g0 else lookupKey k gs) = lookupKey k gs
              exact if_neg fun he => hk he.symm
            rw [hcons]

/-- Keys survive the optimizer loop. -/
theorem keys_updateParams (opt : Tensor → Tensor → String → Tensor) :
    ∀ (grads params : KVStore),
      (updateParams opt grads params).map Prod.fst = params.map Prod.fst := by
  intro grads
  induction grads with
  | nil => intro params; rfl
  | cons kv gs ih =>
      intro params
      cases hp : lookupKey kv.1 params with
      | some pv =>
          have step :
              updateParams opt (kv :: gs) params
                = updateParams opt gs (setKey kv.1 (opt pv kv.2 kv.1) params) := by
            simp [updateParams, hp]
          rw [step, ih, keys_setKey]
      | none =>
          have step :
              updateParams opt (kv :: gs) params
                = updateParams opt gs params := by
            simp [updateParams, hp]
          rw [step, ih]

/-- Counterexample to claim C8: flush_gradients zeroes each gradient with
np.zeros_like of the GRADIENT, not of the parameter.  On the state an RBM
backward call leaves for a 2-example batch, the b_in gradient after
update() is all-zero of shape (2, 1) while the b_in parameter has shape
(1, 1). -/
theorem layerbase_update_zeroes_with_gradient_shape :
    rbmLikeGradAfter = some { shape := [2, 1], data := [0, 0] } ∧
      lookupKey "b_in" rbmLikeState.params
        = some { shape := [1, 1], data := [0] } ∧
      ([2, 1] : List ℕ) ≠ [1, 1] := by
  refine ⟨?_, by decide, by decide⟩
  decide

/-- Claim C8 as amended: a non-frozen update() replaces, for every key
present in both parameters and gradients, the parameter by
optimizer(old, gradient, key), leaves parameters with no gradient alone,
and then flushes: afterwards every stored gradient is all-zero with the
shape of the gradient it replaced (which is the parameter's shape whenever
the stored gradient had the parameter's shape), every derived variable is
cleared, and the cached inputs are cleared. -/
theorem layerbase_update_applies_optimizer_then_flushes
    (opt : Tensor → Tensor → String → Tensor) (s : LState)
    (hTr : s.trainable = true)
    (hg : (s.grads.map Prod.fst).Nodup) :
    ∃ s', update opt s = Except.ok s' ∧
      (∀ k p g, lookupKey k s.params = some p → lookupKey k s.grads = some g →
        lookupKey k s'.params = some (opt p g k)) ∧
      (∀ k p, lookupKey k s.params = some p → lookupKey k s.grads = none →
        lookupKey k s'.params = some p) ∧
      (∀ k g, lookupKey k s.grads = some g →
        lookupKey k s'.grads = some (zerosLike g) ∧
          (zerosLike g).shape = g.shape ∧ ∀ x ∈ (zerosLike g).data, x = 0) ∧
      (∀ k p g, lookupKey k s.params = some p → lookupKey k s.grads = some g →
        g.shape = p.shape → (zerosLike g).shape = p.shape) ∧
      (∀ kv ∈ s'.derived, kv.2 = none) ∧ s'.Xs = [] := by
  refine ⟨{ trainable := s.trainable, Xs := [],
            params := updateParams opt s.grads s.params,
            grads := s.grads.map fun kv => (kv.1, zerosLike kv.2),
            derived := s.derived.map fun kv => (kv.1, none) },
    ?_, ?_, ?_, ?_, ?_, ?_, rfl⟩
  · simp [update, flushGradients, hTr]
  · intro k p g hp hgk
    have h := lookupKey_updateParams opt s.grads hg s.params k
    rw [hp, hgk] at h
    exact h
  · intro k p hp hgk
    have h := lookupKey_updateParams opt s.grads hg s.params k
    rw [hp, hgk] at h
    exact h
  · intro k g hgk
    refine ⟨?_, rfl, ?_⟩
    · have hmv := lookupKey_map_value zerosLike k s.grads
      rw [show lookupKey k (s.grads.map fun kv => (kv.1, zerosLike kv.2))
          = some (zerosLike g) by rw [hmv, hgk]; rfl]
    · intro x hx
      simp only [zerosLike] at hx
      rcases List.mem_map.mp hx with ⟨a, -, ha⟩
      exact ha.symm
  · intro k p g _ _ hsh
    simpa [zerosLike] using hsh
  · intro kv hkv
    rcases List.mem_map.mp hkv with ⟨ab, -, h⟩
    rw [← h]

/-- Witness for the update theorem at a concrete one-parameter state. -/
theorem layerbase_update_witness :
    exLState.trainable = true ∧
      (exLState.grads.map Prod.fst).Nodup ∧
      (∃ s', update exOpt exLState = Except.ok s' ∧
        (∀ k p g, lookupKey k exLState.params = some p →
          lookupKey k exLState.grads = some g →
          lookupKey k s'.params = some (exOpt p g k)) ∧
        (∀ k p, lookupKey k exLState.params = some p →
          lookupKey k exLState.grads = none →
          lookupKey k s'.params = some p) ∧
        (∀ k g, lookupKey k exLState.grads = some g →
          lookupKey k s'.grads = some (zerosLike g) ∧
            (zerosLike g).shape = g.shape ∧
              ∀ x ∈ (zerosLike g).data, x = 0) ∧
        (∀ k p g, lookupKey k exLState.params = some p →
          lookupKey k exLState.grads = some g →
          g.shape = p.shape → (zerosLike g).shape = p.shape) ∧
        (∀ kv ∈ s'.derived, kv.2 = none) ∧ s'.Xs = []) :=
  ⟨rfl, by decide,
    layerbase_update_applies_optimizer_then_flushes exOpt exLState rfl
      (by decide)⟩

end LayerContract

namespace FC

open LayerContract

/-- Counterexample to claim C10: after FullyConnected.backward on a
1-in/1-out layer, the gradients dict holds the cache entries Z and Y next
to W and b, so its key set is NOT a subset of the parameters' key set. -/
theorem fc_backward_breaks_gradient_key_subset :
    fcExGradKeys = ["W", "b", "Z", "Y"] ∧ fcExParamKeys = ["W", "b"] ∧
      ¬ fcExGradKeys ⊆ fcExParamKeys := by
  refine ⟨rfl, rfl, ?_⟩
  intro hsub
  have : ("Z" : String) ∈ fcExParamKeys := hsub (by decide)
  revert this
  decide

/-- Claim C10 as amended: for a FullyConnected layer the containment runs
the other way — once initialized, the parameter keys W, b are a subset of
the gradient keys, and forward, backward, update and flush_gradients all
preserve this (backward adds the extra cache entries Z and Y under
gradients; update applies the optimizer only to keys that are
parameters). -/
theorem fc_param_keys_subset_gradient_keys
    (act aG : ℚ → ℚ) (opt : Tensor → Tensor → String → Tensor)
    (s : FCState) (X dLdY : Tensor)
    (hP : s.params.map Prod.fst = ["W", "b"])
    (hSub : s.params.map Prod.fst ⊆ s.grads.map Prod.fst) :
    ((fcForward act s X).1.params.map Prod.fst = ["W", "b"] ∧
        (fcForward act s X).1.params.map Prod.fst
          ⊆ (fcForward act s X).1.grads.map Prod.fst) ∧
      (∀ r s', fcBackward aG s dLdY = Except.ok (r, s') →
        s'.params.map Prod.fst = ["W", "b"] ∧
          s'.params.map Prod.fst ⊆ s'.grads.map Prod.fst) ∧
      (∀ s', fcUpdate opt s = Except.ok s' →
        s'.params.map Prod.fst = ["W", "b"] ∧
          s'.params.map Prod.fst ⊆ s'.grads.map Prod.fst) ∧
      (∀ s', fcFlush s = Except.ok s' →
        s'.params.map Prod.fst = ["W", "b"] ∧
          s'.params.map Prod.fst ⊆ s'.grads.map Prod.fst) := by
  refine ⟨⟨hP, hSub⟩, ?_, ?_, ?_⟩
  · intro r s' h
    by_cases ht : s.trainable = true
    · cases hxc : s.Xc with
      | none =>
          simp [fcBackward, ht, hxc] at h
      | some X0 =>
          cases hdz : s.derivedZ with
          | none => simp [fcBackward, ht, hxc, hdz] at h
          | some Z0 =>
              simp [fcBackward, ht, hxc, hdz] at h
              obtain ⟨-, hs⟩ := h
              subst hs
              constructor
              · exact hP
              · show s.params.map Prod.fst ⊆ ["W", "b", "Z", "Y"]
                rw [hP]
                intro a ha
                simp at ha
                rcases ha with rfl | rfl <;> simp
    · simp [fcBackward, ht] at h
  · intro s' h
    by_cases ht : s.trainable = true
    · simp [fcUpdate, fcFlush, ht] at h
      subst h
      constructor
      · show (updateParams opt s.grads s.params).map Prod.fst = ["W", "b"]
        rw [keys_updateParams]
        exact hP
      · show (updateParams opt s.grads s.params).map Prod.fst
          ⊆ (s.grads.map fun kv => (kv.1, zerosLike kv.2)).map Prod.fst
        rw [keys_updateParams, keys_map_value]
        exact hSub
    · simp [fcUpdate, ht] at h
  · intro s' h
    by_cases ht : s.trainable = true
    · simp [fcFlush, ht] at h
      subst h
      constructor
      · exact hP
      · show s.params.map Prod.fst
          ⊆ (s.grads.map fun kv => (kv.1, zerosLike kv.2)).map Prod.fst
        rw [keys_map_value]
        exact hSub
    · simp [fcFlush, ht] at h

/-- Witness for the amended subset theorem at the concrete layer. -/
theorem fc_param_keys_subset_gradient_keys_witness :
    fcEx0.params.map Prod.fst = ["W", "b"] ∧
      fcEx0.params.map Prod.fst ⊆ fcEx0.grads.map Prod.fst ∧
      (∀ r s', fcBackward (fun _ => 1) fcEx0 { shape := [1, 1], data := [1] }
          = Except.ok (r, s') →
        s'.params.map Prod.fst = ["W", "b"] ∧
          s'.params.map Prod.fst ⊆ s'.grads.map Prod.fst) :=
  ⟨rfl, fun _ ha => ha,
    (fc_param_keys_subset_gradient_keys (fun x => x) (fun _ => 1)
      LayerContract.exOpt fcEx0 { shape := [1, 1], data := [1] }
      { shape := [1, 1], data := [1] } rfl (fun _ ha => ha)).2.1⟩

end FC

namespace Conv2DGrad

/-- Claim C4 is violated by the source for Conv2D (and Conv1D, Deconv2D and
the RBM): Conv2D.backward performs no trainable assertion, so on a frozen
layer it still succeeds, stores gradients, and returns an input gradient —
while LayerBase.update and LayerBase.flush_gradients do signal the
precondition violation and leave the parameters untouched. -/
theorem conv2d_backward_skips_frozen_check :
    exOk (conv2dBackwardStep frozenConv) = true ∧
      (∀ u v q ch, weightsAfterBackward frozenConv u v q ch
        = frozenConv.ctx.W u v q ch) ∧
      frozenConv.trainable = false ∧
      LayerContract.update LayerContract.exOpt frozenL
        = Except.error "AssertionError: Layer is frozen" ∧
      LayerContract.flushGradients frozenL
        = Except.error "AssertionError: Layer is frozen" :=
  ⟨rfl, fun _ _ _ _ => rfl, rfl, rfl, rfl⟩

end Conv2DGrad

namespace Pool2DMax

/-- Claim C7 is violated by the source: Pool2D.backward in max mode reads
each window from the UNPADDED cached input at padded coordinates.  With
pad = 1 on a 2 x 2 input (kernel 2 x 2, stride 1), the window at output
position (0, 2) lies entirely outside the unpadded input, and np.max
raises on the zero-size window instead of routing any gradient. -/
theorem pool2d_max_backward_crashes_on_padded_input :
    errMsg (pool2dMaxBackward exPP)
      = some "ValueError: zero-size array to reduction operation maximum" := by
  decide

end Pool2DMax

namespace LSTMStep

/-- Claim C2 is violated by the source: LSTMCell.backward recomputes the
forget- and update-gate pre-activations as np.dot(Zt, Wf) + bo and
np.dot(Zt, Wu) + bo — with the OUTPUT-gate bias bo in place of bf and bu.
At the concrete scalar instance (bu = 1, bo = 0, square gate function) the
stored Wu gradient is 0, while the exact analytic derivative of the hidden
state with respect to the effective Wu entry is 2 — the value the
spec-stated pre-activation Zt.Wu + bu produces. -/
theorem lstm_backward_gate_pre_activations_use_bo :
    gradWu exP exXt exdLdA 1 0 = 0 ∧
      gradWuSpec exP exXt exdLdA 1 0 = 2 ∧
      HasDerivAt lossAt 2 0 ∧ (0 : ℚ) ≠ 2 := by
  refine ⟨?_, ?_, ?_, by norm_num⟩
  · norm_num [gradWu, dGut, dCt, dAt, Go, Gu, Cc, Ct, Gf, Cprev, preact, Zt,
      exP, exXt, exdLdA, Finset.sum_range_succ, Finset.sum_range_zero]
  · norm_num [gradWuSpec, dGutSpec, dCt, dAt, Go, Gu, Cc, Ct, Gf, Cprev,
      preact, Zt, exP, exXt, exdLdA, Finset.sum_range_succ,
      Finset.sum_range_zero]
  · have hfun : lossAt = fun w => (w + 1) * (w + 1) := by
      funext w
      norm_num [lossAt, At, Go, Ct, Gf, Gu, Cc, Cprev, preact, Zt, exP, exXt,
        Finset.sum_range_succ, Finset.sum_range_zero]
    rw [hfun]
    have h1 : HasDerivAt (fun w : ℚ => w + 1) 1 0 := by
      simpa using (hasDerivAt_id (0 : ℚ)).add_const 1
    have h2 := h1.mul h1
    norm_num at h2
    exact h2

end LSTMStep
